import Mathlib

/-!
# Verification of the GunCon2 USB light-gun device model

Shallow embedding of `pcsx2/USB/usb-lightgun/guncon2.cpp` (namespace
`usb_lightgun`).  Machine integers are modelled as `Nat`/`Int` with explicit
wrapping where the C++ code narrows; the C++ `float` computations of the
coordinate mapper are modelled over `ℚ` with exact round-half-away-from-zero
(`std::round`).  Stateful handlers are modelled as explicit state-passing
functions on a `GunCon2State` record.
-/

namespace usb_lightgun

/-- `GUNCON2_FLAG_PROGRESSIVE = 0x0100` (guncon2.cpp line 50). -/
def GUNCON2_FLAG_PROGRESSIVE : ℕ := 0x0100

/-- `GUNCON2_CALIBRATION_DELAY = 12` (guncon2.cpp line 52). -/
def GUNCON2_CALIBRATION_DELAY : ℕ := 12

/-- `GUNCON2_CALIBRATION_REPORT_DELAY = 5` (guncon2.cpp line 53). -/
def GUNCON2_CALIBRATION_REPORT_DELAY : ℕ := 5

/-- Button bit indices (guncon2.cpp lines 56-74). -/
def BID_TRIGGER : ℕ := 13

def BID_SHOOT_OFFSCREEN : ℕ := 16

def BID_RECALIBRATE : ℕ := 17

def BID_RELATIVE_LEFT : ℕ := 18

def BID_RELATIVE_DOWN : ℕ := 21

/-- Interpretation of a value in `[0, 2^16)` (or any integer) as the C++
`s16` obtained by two's-complement narrowing (`static_cast<s16>`). -/
def toS16 (n : ℤ) : ℤ := (n + 32768) % 65536 - 32768

/-- Exact model of C++ `std::round`: round half away from zero. -/
def roundHalfAway (q : ℚ) : ℤ := if 0 ≤ q then ⌊q + 1 / 2⌋ else -⌊-q + 1 / 2⌋

/-- `struct GameConfig` (guncon2.cpp lines 79-85): per-title calibration
record.  `scale_x`/`scale_y` are percentages; centers and screen sizes are
unsigned integers. -/
structure GameConfig where
  serial : String
  scale_x : ℚ
  scale_y : ℚ
  center_x : ℕ
  center_y : ℕ
  screen_width : ℕ
  screen_height : ℕ
deriving Repr, DecidableEq

/-- `s_game_config` (guncon2.cpp lines 87-119): the static per-title profile
table, in source order (commented-out duplicate entries omitted, as in the
compiled code). -/
def s_game_config : List GameConfig := [
  ⟨"SLES-50930", 90.25, 94.5, 390, 132, 640, 256⟩,
  ⟨"SLES-51095", 90.25, 94.5, 390, 132, 640, 256⟩,
  ⟨"SLES-51096", 90.25, 94.5, 390, 132, 640, 256⟩,
  ⟨"SLUS-20485", 90.25, 92.5, 390, 132, 640, 240⟩,
  ⟨"SLUS-20389", 89.25, 93.5, 422, 141, 640, 240⟩,
  ⟨"SLES-50936", 112.0, 100.0, 320, 120, 512, 256⟩,
  ⟨"SLPM-65139", 90.0, 91.5, 320, 120, 640, 240⟩,
  ⟨"SLES-52620", 89.5, 112.3, 390, 147, 640, 256⟩,
  ⟨"SLES-51289", 84.5, 89.0, 456, 164, 640, 256⟩,
  ⟨"SLPS-25165", 90.25, 98.0, 390, 138, 640, 240⟩,
  ⟨"SCES-50889", 90.25, 94.5, 390, 169, 640, 256⟩,
  ⟨"SLPS-20218", 90.0, 92.0, 320, 134, 640, 240⟩,
  ⟨"SLUS-20492", 90.25, 92.5, 390, 132, 640, 240⟩,
  ⟨"SLES-50650", 90.25, 107.0, 425, 135, 640, 240⟩,
  ⟨"SLES-51448", 90.25, 95.0, 420, 132, 640, 240⟩,
  ⟨"SLUS-20669", 90.25, 93.5, 420, 132, 640, 240⟩,
  ⟨"SLES-51617", 90.25, 82.0, 200, 154, 640, 256⟩,
  ⟨"SLUS-20619", 90.25, 91.75, 453, 154, 640, 256⟩,
  ⟨"SCES-50300", 90.25, 102.75, 390, 138, 640, 256⟩,
  ⟨"SLUS-20219", 90.25, 97.5, 390, 154, 640, 240⟩,
  ⟨"SCES-51844", 90.25, 102.75, 390, 138, 640, 256⟩,
  ⟨"SLUS-20645", 90.25, 97.5, 390, 154, 640, 240⟩,
  ⟨"SCES-52530", 90.25, 99.0, 390, 153, 640, 256⟩,
  ⟨"SLUS-20927", 90.25, 99.0, 390, 153, 640, 240⟩,
  ⟨"SCES-50411", 89.8, 99.9, 421, 138, 640, 256⟩,
  ⟨"SLPS-25077", 90.0, 97.5, 422, 118, 640, 240⟩,
  ⟨"SLUS-20221", 89.8, 102.5, 452, 137, 640, 228⟩,
  ⟨"SLES-51229", 110.15, 100.0, 433, 159, 512, 256⟩]

/-- Default profile constants (guncon2.cpp lines 121-126). -/
def DEFAULT_SCREEN_WIDTH : ℕ := 640

def DEFAULT_SCREEN_HEIGHT : ℕ := 240

def DEFAULT_CENTER_X : ℚ := 320

def DEFAULT_CENTER_Y : ℚ := 120

def DEFAULT_SCALE_X : ℚ := 100

def DEFAULT_SCALE_Y : ℚ := 100

/-- The device state relevant to the verified core of `GunCon2State`
(guncon2.cpp lines 143-221): configuration profile, host button/axis state,
and the saved device state (params and calibration).  Host-platform fields
(udev handles, cursor rendering, threads) are outside the modelled core. -/
structure GunCon2State where
  /-- `custom_config` : manual screen configuration requested. -/
  custom_config : Bool := false
  /-- `screen_width` (u32), default 640. -/
  screen_width : ℕ := 640
  /-- `screen_height` (u32), default 240. -/
  screen_height : ℕ := 240
  /-- `center_x` (float), default 320. -/
  center_x : ℚ := 320
  /-- `center_y` (float), default 120. -/
  center_y : ℚ := 120
  /-- `scale_x` (float), default 1.0 (i.e. 100 %). -/
  scale_x : ℚ := 1
  /-- `scale_y` (float), default 1.0. -/
  scale_y : ℚ := 1
  /-- `button_state` (u32 bitmask over the BID_ indices). -/
  button_state : ℕ := 0
  /-- `relative_pos[4]` (float). -/
  relative_pos : Fin 4 → ℚ := fun _ => 0
  /-- `param_x` (s16). -/
  param_x : ℤ := 0
  /-- `param_y` (s16). -/
  param_y : ℤ := 0
  /-- `param_mode` (u16). -/
  param_mode : ℕ := 0
  /-- `calibration_timer` (u16). -/
  calibration_timer : ℕ := 0
  /-- `calibration_pos_x` (s16). -/
  calibration_pos_x : ℤ := 0
  /-- `calibration_pos_y` (s16). -/
  calibration_pos_y : ℤ := 0
  /-- `auto_config_done`. -/
  auto_config_done : Bool := false

/-- The freshly-constructed device state (field initializers of
`GunCon2State`, guncon2.cpp lines 157-192). -/
def initialState : GunCon2State := {}

/-- `GunCon2State::CalculatePosition` (guncon2.cpp lines 759-797), the
coordinate-mapper core: from the normalized display position
`(pointer_x, pointer_y)` (negative = offscreen) to the device-space
`(pos_x, pos_y)` report pair.  Upstream sample acquisition (window
translation, udev, split-screen aim adjustment, lines 612-758) supplies
`pointerX`/`pointerY` and is outside the modelled core. -/
def CalculatePosition (s : GunCon2State) (pointerX pointerY : ℚ) : ℤ × ℤ :=
  if pointerX < 0 ∨ pointerY < 0 then
    (0, 0)
  else
    let fx : ℚ := pointerX * (s.screen_width : ℚ) - ((s.screen_width / 2 : ℕ) : ℚ)
    let fy : ℚ := pointerY * (s.screen_height : ℚ) - ((s.screen_height / 2 : ℕ) : ℚ)
    let fx' : ℚ := fx * s.scale_x
    let fy' : ℚ := fy * s.scale_y
    let x : ℤ := roundHalfAway (fx' + s.center_x)
    let y : ℤ := roundHalfAway (fy' + s.center_y)
    let x' : ℤ := if s.param_mode &&& GUNCON2_FLAG_PROGRESSIVE ≠ 0 then
        x - s.param_x.tdiv 2 else x - s.param_x
    let y' : ℤ := if s.param_mode &&& GUNCON2_FLAG_PROGRESSIVE ≠ 0 then
        y - s.param_y.tdiv 2 else y - s.param_y
    (toS16 (max x' 1), toS16 (max y' 1))

/-- `union GunCon2Out` (guncon2.cpp lines 129-139): 16-bit button mask
(active low), signed 16-bit X and Y. -/
structure GunCon2Out where
  buttons : ℕ
  pos_x : ℤ
  pos_y : ℤ
deriving Repr, DecidableEq

/-- The `USB_TOKEN_IN`, endpoint-1 branch of `guncon2_handle_data`
(guncon2.cpp lines 385-434): builds the report and updates the calibration
state.  Any other pid/endpoint stalls without touching device state. -/
def guncon2_handle_data_in (s : GunCon2State) (pointerX pointerY : ℚ) :
    GunCon2Out × GunCon2State :=
  let p := CalculatePosition s pointerX pointerY
  -- recalibrate trigger (lines 397-402)
  let s1 : GunCon2State :=
    if s.button_state.testBit BID_RECALIBRATE ∧ s.calibration_timer = 0 then
      { s with calibration_timer := GUNCON2_CALIBRATION_DELAY,
               calibration_pos_x := p.1, calibration_pos_y := p.2 }
    else s
  -- buttons are active low (line 406): u16 complement of the low 16 bits
  let buttons : ℕ := (65535 - s1.button_state % 65536) |||
      (s1.param_mode &&& GUNCON2_FLAG_PROGRESSIVE)
  if 0 < s1.calibration_timer then
    -- force trigger down while calibrating (lines 410-423)
    let buttons' := buttons &&& (65535 - 2 ^ BID_TRIGGER)
    let t := s1.calibration_timer - 1
    let posOut : ℤ × ℤ :=
      if t < GUNCON2_CALIBRATION_REPORT_DELAY then (0, 0)
      else (s1.calibration_pos_x, s1.calibration_pos_y)
    (⟨buttons', posOut.1, posOut.2⟩, { s1 with calibration_timer := t })
  else if s1.button_state.testBit BID_SHOOT_OFFSCREEN then
    -- offscreen shot (lines 424-430)
    (⟨buttons &&& (65535 - 2 ^ BID_TRIGGER), 0, 0⟩, s1)
  else
    (⟨buttons, p.1, p.2⟩, s1)

/-- One poll input: the host button state written into the device before the
poll (bindings are applied between polls) and the normalized pointer sample
for that poll. -/
structure PollInput where
  buttons : ℕ
  px : ℚ
  py : ℚ

/-- Iterate `guncon2_handle_data_in` over a sequence of polls, collecting the
reported positions. -/
def runPolls (s : GunCon2State) : List PollInput → List (ℤ × ℤ)
  | [] => []
  | i :: rest =>
      let r := guncon2_handle_data_in { s with button_state := i.buttons } i.px i.py
      (r.1.pos_x, r.1.pos_y) :: runPolls r.2 rest

/-- `GunCon2State::AutoConfigure` (guncon2.cpp lines 579-608): linear scan of
`s_game_config` for the current disc serial; the first match installs its
profile (percent scales divided by 100).  Returns the updated state and
whether the no-match diagnostic notice was emitted. -/
def AutoConfigure (serial : String) (s : GunCon2State) : GunCon2State × Bool :=
  match s_game_config.find? (fun gc => gc.serial = serial) with
  | some gc =>
      ({ s with scale_x := gc.scale_x / 100, scale_y := gc.scale_y / 100,
                center_x := (gc.center_x : ℚ), center_y := (gc.center_y : ℚ),
                screen_width := gc.screen_width,
                screen_height := gc.screen_height }, false)
  | none => (s, true)

/-- Modelled from the spec: the request code `ClassInterfaceOutRequest | 0x09`
(guncon2.cpp line 305).  `ClassInterfaceOutRequest` is defined in the USB
descriptor layer (`USB/qemu-usb/desc.h`), outside the provided sources; the
spec describes it as the single recognized set-parameter request, here
`(USB_DIR_OUT | USB_TYPE_CLASS | USB_RECIP_INTERFACE) << 8 = 0x2100`. -/
def SET_PARAM_REQUEST : ℕ := 0x2100 ||| 0x09

/-- The configuration step at the top of `guncon2_handle_control`
(guncon2.cpp lines 295-299): on the first control packet of a device not
under custom configuration, run `AutoConfigure` and mark it done. -/
def autoConfigStep (s : GunCon2State) (serial : String) : GunCon2State :=
  if ¬s.auto_config_done ∧ ¬s.custom_config then
    { (AutoConfigure serial s).1 with auto_config_done := true }
  else s

/-- `guncon2_handle_control` (guncon2.cpp lines 288-315).  `serial` is the
current disc serial consumed by `AutoConfigure`; `descHandled` models whether
`usb_desc_handle_control` (descriptor negotiation, outside the provided
sources) satisfied the request; `d` is the 6-byte payload (u8 each).
Returns the new state and whether the packet was stalled. -/
def guncon2_handle_control (s : GunCon2State) (serial : String)
    (descHandled : Bool) (request : ℕ) (d : Fin 6 → ℕ) :
    GunCon2State × Bool :=
  -- apply configuration on the first control packet (lines 295-299)
  let s1 : GunCon2State := autoConfigStep s serial
  if descHandled then (s1, false)
  else if request = SET_PARAM_REQUEST then
    ({ s1 with
        param_x := toS16 ((d 0 % 256) + 256 * (d 1 % 256) : ℕ),
        param_y := toS16 ((d 2 % 256) + 256 * (d 3 % 256) : ℕ),
        param_mode := (d 4 % 256) + 256 * (d 5 % 256) }, false)
  else (s1, true)

/-- The typed per-port configuration values read by
`GunCon2Device::UpdateSettings` (guncon2.cpp lines 1006-1019) that affect the
modelled core. -/
structure ConfigValues where
  custom_config : Bool
  screen_width : ℕ
  screen_height : ℕ
  center_x : ℚ
  center_y : ℚ
  scale_x : ℚ
  scale_y : ℚ

/-- `GunCon2Device::UpdateSettings`, core part (guncon2.cpp lines 1002-1020):
stores `custom_config` and applies the user geometry unless auto-config has
already been applied and manual configuration is off.  Cursor/pointer
handling (host rendering state, lines 1022-1066) is outside the modelled
core. -/
def UpdateSettings (s : GunCon2State) (c : ConfigValues) : GunCon2State :=
  let s1 := { s with custom_config := c.custom_config }
  if ¬s1.auto_config_done ∨ s1.custom_config then
    { s1 with screen_width := c.screen_width, screen_height := c.screen_height,
              center_x := c.center_x, center_y := c.center_y,
              scale_x := c.scale_x / 100, scale_y := c.scale_y / 100 }
  else s1

/-- The serialized snapshot fields of `GunCon2Device::Freeze`
(guncon2.cpp lines 1175-1194), in stream order after the marker. -/
structure Snapshot where
  param_x : ℤ
  param_y : ℤ
  param_mode : ℕ
  calibration_timer : ℕ
  calibration_pos_x : ℤ
  calibration_pos_y : ℤ
  auto_config_done : Bool
  scale_x : ℚ
  scale_y : ℚ
  center_x : ℚ
  center_y : ℚ
  screen_width : ℕ
  screen_height : ℕ

/-- `GunCon2Device::Freeze` in reading (restore) mode (guncon2.cpp lines
1168-1208).  `markerOk` models `sw.DoMarker("GunCon2Device")`; its failure
aborts the load before any field is read.  Otherwise the params, calibration
fields and `auto_config_done` are read into live state, and the profile
fields are applied only under the line-1197 condition, which tests the live
`custom_config` and the just-restored (snapshot) `auto_config_done`. -/
def FreezeRead (s : GunCon2State) (snap : Snapshot) (markerOk : Bool) :
    Option GunCon2State :=
  if ¬markerOk then none
  else
    let s1 := { s with
        param_x := snap.param_x, param_y := snap.param_y,
        param_mode := snap.param_mode,
        calibration_timer := snap.calibration_timer,
        calibration_pos_x := snap.calibration_pos_x,
        calibration_pos_y := snap.calibration_pos_y,
        auto_config_done := snap.auto_config_done }
    if ¬s1.custom_config ∧ s1.auto_config_done then
      some { s1 with scale_x := snap.scale_x, scale_y := snap.scale_y,
                     center_x := snap.center_x, center_y := snap.center_y,
                     screen_width := snap.screen_width,
                     screen_height := snap.screen_height }
    else some s1

/-- `GunCon2Device::GetBindingValue` (guncon2.cpp lines 1069-1075). -/
def GetBindingValue (s : GunCon2State) (bind_index : ℕ) : ℚ :=
  if s.button_state &&& (1 <<< bind_index) ≠ 0 then 1 else 0

/-- `GunCon2Device::SetBindingValue` (guncon2.cpp lines 1077-1098): button
indices below `BID_RELATIVE_LEFT` set/clear the bit at threshold 0.5;
indices 18-21 store the value into `relative_pos` (the software-cursor
update it may trigger is host rendering state, outside the core). -/
def SetBindingValue (s : GunCon2State) (bind_index : ℕ) (value : ℚ) :
    GunCon2State :=
  if bind_index < BID_RELATIVE_LEFT then
    if 1 / 2 ≤ value then
      { s with button_state := s.button_state ||| (1 <<< bind_index) }
    else
      { s with button_state := s.button_state &&& ((2 ^ 32 - 1) ^^^ (1 <<< bind_index)) }
  else if h : bind_index ≤ BID_RELATIVE_DOWN then
    let rel_index : Fin 4 := ⟨bind_index - BID_RELATIVE_LEFT, by
      simp only [BID_RELATIVE_LEFT]
      simp only [BID_RELATIVE_DOWN] at h
      omega⟩
    if s.relative_pos rel_index = value then s
    else { s with relative_pos := Function.update s.relative_pos rel_index value }
  else s

/-- The mapped X coordinate as worded by the spec (§4.1 / claim C4), before
clamping and narrowing: `fx = px*width − width/2` with integer (truncating)
halving of the width, multiplied by `scale_x`, plus `center_x`, rounded to
the nearest integer (ties away from zero, as `std::round`); then `param_x`
subtracted in full, or half of it (integer division, truncating) when the
progressive flag (mode bit 0x0100) is set. -/
def specMappedX (s : GunCon2State) (px : ℚ) : ℤ :=
  let fx : ℚ := px * (s.screen_width : ℚ) - ((s.screen_width / 2 : ℕ) : ℚ)
  let xr : ℤ := roundHalfAway (fx * s.scale_x + s.center_x)
  if s.param_mode &&& GUNCON2_FLAG_PROGRESSIVE ≠ 0 then xr - s.param_x.tdiv 2
  else xr - s.param_x

/-- The mapped Y coordinate as worded by the spec (§4.1 / claim C4), the
analogue of `specMappedX` for the vertical axis. -/
def specMappedY (s : GunCon2State) (py : ℚ) : ℤ :=
  let fy : ℚ := py * (s.screen_height : ℚ) - ((s.screen_height / 2 : ℕ) : ℚ)
  let yr : ℤ := roundHalfAway (fy * s.scale_y + s.center_y)
  if s.param_mode &&& GUNCON2_FLAG_PROGRESSIVE ≠ 0 then yr - s.param_y.tdiv 2
  else yr - s.param_y

/-- The coordinate-mapper computation of `CalculatePosition` with the device
fields it reads passed explicitly (helper view used to reason about which
state fields the mapper depends on). -/
def calcPos (w h : ℕ) (cx cy sx sy : ℚ) (qx qy : ℤ) (pm : ℕ)
    (pointerX pointerY : ℚ) : ℤ × ℤ :=
  if pointerX < 0 ∨ pointerY < 0 then
    (0, 0)
  else
    let fx : ℚ := pointerX * (w : ℚ) - ((w / 2 : ℕ) : ℚ)
    let fy : ℚ := pointerY * (h : ℚ) - ((h / 2 : ℕ) : ℚ)
    let x : ℤ := roundHalfAway (fx * sx + cx)
    let y : ℤ := roundHalfAway (fy * sy + cy)
    let x' : ℤ := if pm &&& GUNCON2_FLAG_PROGRESSIVE ≠ 0 then
        x - qx.tdiv 2 else x - qx
    let y' : ℤ := if pm &&& GUNCON2_FLAG_PROGRESSIVE ≠ 0 then
        y - qy.tdiv 2 else y - qy
    (toS16 (max x' 1), toS16 (max y' 1))

/-! ## Helper lemmas -/

/-- `CalculatePosition` reads exactly the profile and parameter fields. -/
theorem CalculatePosition_eq_calcPos (s : GunCon2State) (px py : ℚ) :
    CalculatePosition s px py =
      calcPos s.screen_width s.screen_height s.center_x s.center_y
        s.scale_x s.scale_y s.param_x s.param_y s.param_mode px py := rfl

/-- `CalculatePosition` ignores the host button state. -/
theorem CalculatePosition_button_update (s : GunCon2State) (b : ℕ) (px py : ℚ) :
    CalculatePosition { s with button_state := b } px py =
      CalculatePosition s px py := rfl

/-- `CalculatePosition` ignores the host button state and the calibration
fields. -/
theorem CalculatePosition_core_update (s : GunCon2State) (b t : ℕ) (cx cy : ℤ)
    (px py : ℚ) :
    CalculatePosition
      { s with button_state := b, calibration_timer := t,
               calibration_pos_x := cx, calibration_pos_y := cy } px py =
      CalculatePosition s px py := rfl

/-- Unfolding of `runPolls` on a cons cell. -/
theorem runPolls_cons (s : GunCon2State) (i : PollInput) (rest : List PollInput) :
    runPolls s (i :: rest) =
      ((guncon2_handle_data_in { s with button_state := i.buttons } i.px i.py).1.pos_x,
       (guncon2_handle_data_in { s with button_state := i.buttons } i.px i.py).1.pos_y) ::
      runPolls (guncon2_handle_data_in { s with button_state := i.buttons } i.px i.py).2
        rest := rfl

/-- The incoming `button_state` is irrelevant to `runPolls`: every poll
overwrites it with the poll input first. -/
theorem runPolls_button_irrelevant (s : GunCon2State) (b : ℕ)
    (l : List PollInput) :
    runPolls { s with button_state := b } l = runPolls s l := by
  cases l with
  | nil => rfl
  | cons i rest => rfl

/-- A data poll that triggers recalibration: the report carries the position
computed on this poll, which is also frozen into the calibration state, and
the timer is started at `GUNCON2_CALIBRATION_DELAY - 1` (12, post-decrement). -/
theorem handle_trigger_spec (s : GunCon2State) (px py : ℚ)
    (h0 : s.calibration_timer = 0)
    (ht : s.button_state.testBit BID_RECALIBRATE = true) :
    ((guncon2_handle_data_in s px py).1.pos_x,
     (guncon2_handle_data_in s px py).1.pos_y) = CalculatePosition s px py ∧
    (guncon2_handle_data_in s px py).2 =
      { s with calibration_timer := 11,
               calibration_pos_x := (CalculatePosition s px py).1,
               calibration_pos_y := (CalculatePosition s px py).2 } := by
  simp only [guncon2_handle_data_in, if_pos (show _ ∧ _ from ⟨ht, h0⟩)]
  exact ⟨rfl, rfl⟩

/-- A data poll with the calibration timer running: the trigger condition is
skipped, the timer decrements, and the report shows the frozen position while
the decremented timer is still at or above the report delay, the sentinel
`(0, 0)` below it. -/
theorem handle_calibrating_spec (s : GunCon2State) (px py : ℚ)
    (h : 0 < s.calibration_timer) :
    ((guncon2_handle_data_in s px py).1.pos_x,
     (guncon2_handle_data_in s px py).1.pos_y) =
      (if s.calibration_timer - 1 < GUNCON2_CALIBRATION_REPORT_DELAY
       then ((0 : ℤ), (0 : ℤ))
       else (s.calibration_pos_x, s.calibration_pos_y)) ∧
    (guncon2_handle_data_in s px py).2 =
      { s with calibration_timer := s.calibration_timer - 1 } := by
  have hne : ¬(s.button_state.testBit BID_RECALIBRATE = true ∧
      s.calibration_timer = 0) := by
    rintro ⟨-, h0⟩; omega
  simp only [guncon2_handle_data_in, if_neg hne, if_pos h]
  exact ⟨trivial, trivial⟩

/-- A data poll in the idle state without recalibrate or shoot-offscreen:
the report carries the mapped position and the state is unchanged. -/
theorem handle_normal_spec (s : GunCon2State) (px py : ℚ)
    (h0 : s.calibration_timer = 0)
    (hr : s.button_state.testBit BID_RECALIBRATE = false)
    (hs : s.button_state.testBit BID_SHOOT_OFFSCREEN = false) :
    ((guncon2_handle_data_in s px py).1.pos_x,
     (guncon2_handle_data_in s px py).1.pos_y) = CalculatePosition s px py ∧
    (guncon2_handle_data_in s px py).2 = s := by
  have hne : ¬(s.button_state.testBit BID_RECALIBRATE = true ∧
      s.calibration_timer = 0) := by
    rintro ⟨h17, -⟩; rw [hr] at h17; exact Bool.false_ne_true h17
  have hnt : ¬(0 < s.calibration_timer) := by omega
  simp only [guncon2_handle_data_in, if_neg hne, if_pos h0, hs]
  rw [if_neg hnt, if_neg (by simp [hs])]
  exact ⟨rfl, rfl⟩

/-- Running the device through an entire calibration countdown: if the timer
equals the number of polls supplied, each poll reports the frozen position
while the decremented timer is at or above the report delay and the sentinel
below it, and the run continues from the idle state. -/
theorem runPolls_calibrating :
    ∀ (ins : List PollInput) (s : GunCon2State) (rest : List PollInput),
    s.calibration_timer = ins.length →
    runPolls s (ins ++ rest) =
      (List.range ins.length).map
        (fun k => if s.calibration_timer - 1 - k < GUNCON2_CALIBRATION_REPORT_DELAY
                  then ((0 : ℤ), (0 : ℤ))
                  else (s.calibration_pos_x, s.calibration_pos_y)) ++
      runPolls { s with calibration_timer := 0 } rest := by
  intro ins
  induction ins with
  | nil =>
      intro s rest h
      have hs : ({ s with calibration_timer := 0 } : GunCon2State) = s := by
        rw [show (0 : ℕ) = s.calibration_timer from h.symm]
      simp [hs]
  | cons i ins ih =>
      intro s rest h
      rw [List.length_cons] at h
      have hpos : 0 < s.calibration_timer := by omega
      rw [List.cons_append, runPolls_cons]
      obtain ⟨hrep, hst⟩ :=
        handle_calibrating_spec { s with button_state := i.buttons } i.px i.py hpos
      rw [hrep, hst]
      dsimp only
      have ih' := ih { s with button_state := i.buttons, calibration_timer := s.calibration_timer - 1 } rest
        (by show s.calibration_timer - 1 = ins.length
            omega)
      dsimp only at ih'
      rw [ih']
      have hbi : runPolls
          { s with button_state := i.buttons, calibration_timer := (0 : ℕ) } rest =
          runPolls { s with calibration_timer := 0 } rest :=
        runPolls_button_irrelevant { s with calibration_timer := 0 } i.buttons rest
      rw [hbi]
      rw [List.length_cons, List.range_succ_eq_map, List.map_cons, List.map_map]
      have hfun :
          ((fun k => if s.calibration_timer - 1 - k <
              GUNCON2_CALIBRATION_REPORT_DELAY then ((0 : ℤ), (0 : ℤ))
            else (s.calibration_pos_x, s.calibration_pos_y)) ∘ Nat.succ) =
          (fun k => if s.calibration_timer - 1 - 1 - k <
              GUNCON2_CALIBRATION_REPORT_DELAY then ((0 : ℤ), (0 : ℤ))
            else (s.calibration_pos_x, s.calibration_pos_y)) := by
        funext k
        show (if s.calibration_timer - 1 - (k + 1) <
            GUNCON2_CALIBRATION_REPORT_DELAY then ((0 : ℤ), (0 : ℤ))
          else (s.calibration_pos_x, s.calibration_pos_y)) = _
        rw [show s.calibration_timer - 1 - (k + 1) =
          s.calibration_timer - 1 - 1 - k from by omega]
      rw [hfun, List.cons_append]
      rw [show s.calibration_timer - 1 - 0 = s.calibration_timer - 1 from by omega]

/-- `runPolls` on the empty poll list. -/
theorem runPolls_nil (s : GunCon2State) : runPolls s [] = [] := rfl

/-! ## Claims -/

/-- C1: on a data poll (IN transfer, endpoint 1) with the recalibrate input
active and `calibration_timer = 0`, the timer is set to 12 and the position
computed on that poll is frozen; the device then reports the frozen position
for exactly 7 consecutive polls (including the triggering one), the sentinel
`(0, 0)` for exactly 5 polls, and resumes normal mapped positions on poll 13;
asserting recalibrate again while the timer is nonzero (polls 2-12 carry
arbitrary button states) has no effect until the timer returns to 0. -/
theorem C1_calibration_sequence (s : GunCon2State)
    (i0 i1 i2 i3 i4 i5 i6 i7 i8 i9 i10 i11 i12 : PollInput)
    (h0 : s.calibration_timer = 0)
    (ht : i0.buttons.testBit BID_RECALIBRATE = true)
    (hs12 : i12.buttons.testBit BID_SHOOT_OFFSCREEN = false) :
    runPolls s [i0, i1, i2, i3, i4, i5, i6, i7, i8, i9, i10, i11, i12] =
      [CalculatePosition s i0.px i0.py, CalculatePosition s i0.px i0.py,
       CalculatePosition s i0.px i0.py, CalculatePosition s i0.px i0.py,
       CalculatePosition s i0.px i0.py, CalculatePosition s i0.px i0.py,
       CalculatePosition s i0.px i0.py,
       (0, 0), (0, 0), (0, 0), (0, 0), (0, 0),
       CalculatePosition s i12.px i12.py] := by
  rw [runPolls_cons]
  obtain ⟨hrep0, hst0⟩ :=
    handle_trigger_spec { s with button_state := i0.buttons } i0.px i0.py h0 ht
  rw [hrep0, hst0]
  dsimp only [CalculatePosition_eq_calcPos]
  have hc := runPolls_calibrating [i1, i2, i3, i4, i5, i6, i7, i8, i9, i10, i11]
    { s with button_state := i0.buttons, calibration_timer := 11,
             calibration_pos_x := (calcPos s.screen_width s.screen_height
               s.center_x s.center_y s.scale_x s.scale_y s.param_x s.param_y
               s.param_mode i0.px i0.py).1,
             calibration_pos_y := (calcPos s.screen_width s.screen_height
               s.center_x s.center_y s.scale_x s.scale_y s.param_x s.param_y
               s.param_mode i0.px i0.py).2 }
    [i12] rfl
  dsimp only at hc
  rw [show ([i1, i2, i3, i4, i5, i6, i7, i8, i9, i10, i11] ++ [i12] :
      List PollInput) = [i1, i2, i3, i4, i5, i6, i7, i8, i9, i10, i11, i12]
    from rfl] at hc
  rw [hc]
  have hlast : runPolls
      { s with button_state := i0.buttons, calibration_timer := 0,
               calibration_pos_x := (calcPos s.screen_width s.screen_height
                 s.center_x s.center_y s.scale_x s.scale_y s.param_x s.param_y
                 s.param_mode i0.px i0.py).1,
               calibration_pos_y := (calcPos s.screen_width s.screen_height
                 s.center_x s.center_y s.scale_x s.scale_y s.param_x s.param_y
                 s.param_mode i0.px i0.py).2 } [i12] =
      [calcPos s.screen_width s.screen_height s.center_x s.center_y s.scale_x
        s.scale_y s.param_x s.param_y s.param_mode i12.px i12.py] := by
    rw [runPolls_cons]
    by_cases h17 : i12.buttons.testBit BID_RECALIBRATE = true
    · obtain ⟨hr, -⟩ := handle_trigger_spec
        { s with button_state := i12.buttons, calibration_timer := 0,
                 calibration_pos_x := (calcPos s.screen_width s.screen_height
                   s.center_x s.center_y s.scale_x s.scale_y s.param_x
                   s.param_y s.param_mode i0.px i0.py).1,
                 calibration_pos_y := (calcPos s.screen_width s.screen_height
                   s.center_x s.center_y s.scale_x s.scale_y s.param_x
                   s.param_y s.param_mode i0.px i0.py).2 }
        i12.px i12.py rfl h17
      dsimp only at hr ⊢
      rw [hr]
      dsimp only [CalculatePosition_eq_calcPos]
      rfl
    · have h17' : i12.buttons.testBit BID_RECALIBRATE = false :=
        Bool.not_eq_true _ ▸ eq_false_of_ne_true h17
      obtain ⟨hr, -⟩ := handle_normal_spec
        { s with button_state := i12.buttons, calibration_timer := 0,
                 calibration_pos_x := (calcPos s.screen_width s.screen_height
                   s.center_x s.center_y s.scale_x s.scale_y s.param_x
                   s.param_y s.param_mode i0.px i0.py).1,
                 calibration_pos_y := (calcPos s.screen_width s.screen_height
                   s.center_x s.center_y s.scale_x s.scale_y s.param_x
                   s.param_y s.param_mode i0.px i0.py).2 }
        i12.px i12.py rfl h17' hs12
      dsimp only at hr ⊢
      rw [hr]
      dsimp only [CalculatePosition_eq_calcPos]
      rfl
  rw [hlast]
  rfl

/-- C1 witness: a concrete 13-poll trace from the fresh device, recalibrate
held on the first poll at pointer `(1/2, 1/2)`, pointer `(3/4, 3/4)` on the
later polls. -/
theorem C1_calibration_sequence_witness :
    runPolls initialState
      [⟨2 ^ 17, 1/2, 1/2⟩, ⟨0, 3/4, 3/4⟩, ⟨0, 3/4, 3/4⟩, ⟨0, 3/4, 3/4⟩,
       ⟨0, 3/4, 3/4⟩, ⟨0, 3/4, 3/4⟩, ⟨0, 3/4, 3/4⟩, ⟨0, 3/4, 3/4⟩,
       ⟨0, 3/4, 3/4⟩, ⟨0, 3/4, 3/4⟩, ⟨0, 3/4, 3/4⟩, ⟨0, 3/4, 3/4⟩,
       ⟨0, 3/4, 3/4⟩] =
      [(320, 120), (320, 120), (320, 120), (320, 120), (320, 120), (320, 120),
       (320, 120), (0, 0), (0, 0), (0, 0), (0, 0), (0, 0), (480, 180)] := by
  have h := C1_calibration_sequence initialState
    ⟨2 ^ 17, 1/2, 1/2⟩ ⟨0, 3/4, 3/4⟩ ⟨0, 3/4, 3/4⟩ ⟨0, 3/4, 3/4⟩
    ⟨0, 3/4, 3/4⟩ ⟨0, 3/4, 3/4⟩ ⟨0, 3/4, 3/4⟩ ⟨0, 3/4, 3/4⟩
    ⟨0, 3/4, 3/4⟩ ⟨0, 3/4, 3/4⟩ ⟨0, 3/4, 3/4⟩ ⟨0, 3/4, 3/4⟩
    ⟨0, 3/4, 3/4⟩ rfl (by decide) (by decide)
  rw [h]
  norm_num [CalculatePosition, initialState, roundHalfAway, toS16,
    GUNCON2_FLAG_PROGRESSIVE]

/-- C2 counterexample: the claim says the trigger bit of the active-low
button mask is forced to the *released* state during calibration.  In the
active-low mask released means the bit is *set*: with no physical button
pressed the normal report carries trigger bit 1 (released), but with the
calibration timer running the report carries trigger bit 0 (pressed) — the
code comment says "Force trigger down".  The claim is false at this input. -/
theorem C2_counterexample :
    0 < ({ calibration_timer := 6 } : GunCon2State).calibration_timer ∧
    ({ calibration_timer := 6 } : GunCon2State).button_state.testBit
      BID_TRIGGER = false ∧
    ((guncon2_handle_data_in ({ } : GunCon2State) 0 0).1.buttons).testBit
      BID_TRIGGER = true ∧
    ((guncon2_handle_data_in ({ calibration_timer := 6 } : GunCon2State)
        0 0).1.buttons).testBit BID_TRIGGER = false := by
  refine ⟨by decide, by decide, ?_, ?_⟩ <;>
    · simp only [guncon2_handle_data_in]
      decide

/-- C2 amended: in every report generated while the calibration override is
active (`calibration_timer > 0`), and in every report generated while the
shoot-offscreen input is active with no calibration in progress or starting,
the trigger bit of the active-low button mask is forced to the *pressed*
(cleared) state, and in the shoot-offscreen case the reported position is the
sentinel `(0, 0)`. -/
theorem C2_trigger_forced_amended (s : GunCon2State) (px py : ℚ) :
    (0 < s.calibration_timer →
      ((guncon2_handle_data_in s px py).1.buttons).testBit BID_TRIGGER =
        false) ∧
    (s.calibration_timer = 0 →
     s.button_state.testBit BID_SHOOT_OFFSCREEN = true →
     s.button_state.testBit BID_RECALIBRATE = false →
      ((guncon2_handle_data_in s px py).1.buttons).testBit BID_TRIGGER =
        false ∧
      (guncon2_handle_data_in s px py).1.pos_x = 0 ∧
      (guncon2_handle_data_in s px py).1.pos_y = 0) := by
  constructor
  · intro h
    have hne : ¬(s.button_state.testBit BID_RECALIBRATE = true ∧
        s.calibration_timer = 0) := by
      rintro ⟨-, h0⟩; omega
    simp only [guncon2_handle_data_in, if_neg hne, if_pos h]
    rw [Nat.testBit_and]
    simp [show ((65535 - 2 ^ BID_TRIGGER : ℕ)).testBit BID_TRIGGER = false
      from by decide]
  · intro h0 h16 h17
    have hne : ¬(s.button_state.testBit BID_RECALIBRATE = true ∧
        s.calibration_timer = 0) := by
      rintro ⟨ha, -⟩; rw [h17] at ha; exact Bool.false_ne_true ha
    have hnt : ¬(0 < s.calibration_timer) := by omega
    simp only [guncon2_handle_data_in, if_neg hne, if_neg hnt]
    rw [if_pos h16]
    refine ⟨?_, rfl, rfl⟩
    rw [Nat.testBit_and]
    simp [show ((65535 - 2 ^ BID_TRIGGER : ℕ)).testBit BID_TRIGGER = false
      from by decide]

/-- C2 amended witness: concrete calibrating state and concrete
shoot-offscreen state. -/
theorem C2_trigger_forced_amended_witness :
    ((guncon2_handle_data_in ({ calibration_timer := 6 } : GunCon2State)
        0 0).1.buttons).testBit BID_TRIGGER = false ∧
    ((guncon2_handle_data_in ({ button_state := 2 ^ 16 } : GunCon2State)
        0 0).1.buttons).testBit BID_TRIGGER = false ∧
    (guncon2_handle_data_in ({ button_state := 2 ^ 16 } : GunCon2State)
        0 0).1.pos_x = 0 ∧
    (guncon2_handle_data_in ({ button_state := 2 ^ 16 } : GunCon2State)
        0 0).1.pos_y = 0 := by
  have h1 := (C2_trigger_forced_amended { calibration_timer := 6 } 0 0).1
    (by decide)
  have h2 := (C2_trigger_forced_amended { button_state := 2 ^ 16 } 0 0).2
    rfl (by decide) (by decide)
  exact ⟨h1, h2.1, h2.2.1, h2.2.2⟩

/-- C4: for every onscreen pointer sample the mapped position is computed by
the spec's exact algorithm (`specMappedX`/`specMappedY`: scale to the virtual
screen with truncating halving, apply curvature scale, re-center, round to
nearest, subtract the title offset in full or halved under the progressive
flag), followed by the clamp to minimum 1 and the signed-16-bit narrowing. -/
theorem C4_mapping_algorithm (s : GunCon2State) (px py : ℚ)
    (hx : 0 ≤ px) (hy : 0 ≤ py) :
    CalculatePosition s px py =
      (toS16 (max (specMappedX s px) 1), toS16 (max (specMappedY s py) 1)) := by
  have hno : ¬(px < 0 ∨ py < 0) := by
    rintro (h | h)
    · exact absurd hx (not_le.2 h)
    · exact absurd hy (not_le.2 h)
  simp only [CalculatePosition, if_neg hno]
  rfl

/-- C4 witness: the algorithm identity evaluated at the fresh device state
and the centered pointer sample. -/
theorem C4_mapping_algorithm_witness :
    CalculatePosition initialState (1/2) (1/2) =
      (toS16 (max (specMappedX initialState (1/2)) 1),
       toS16 (max (specMappedY initialState (1/2)) 1)) :=
  C4_mapping_algorithm initialState (1/2) (1/2) (by norm_num) (by norm_num)

/-- C5: the coordinate mapper is pure and deterministic — its output depends
only on the pointer sample, the `ScreenProfile` fields and the
`DeviceParams`; any two states agreeing on those fields (regardless of
button, calibration or configuration-flag state) map identical samples to
identical positions, and the mapper produces no state change. -/
theorem C5_mapper_pure (s₁ s₂ : GunCon2State) (px py : ℚ)
    (hw : s₁.screen_width = s₂.screen_width)
    (hh : s₁.screen_height = s₂.screen_height)
    (hcx : s₁.center_x = s₂.center_x) (hcy : s₁.center_y = s₂.center_y)
    (hsx : s₁.scale_x = s₂.scale_x) (hsy : s₁.scale_y = s₂.scale_y)
    (hqx : s₁.param_x = s₂.param_x) (hqy : s₁.param_y = s₂.param_y)
    (hm : s₁.param_mode = s₂.param_mode) :
    CalculatePosition s₁ px py = CalculatePosition s₂ px py := by
  rw [CalculatePosition_eq_calcPos, CalculatePosition_eq_calcPos,
    hw, hh, hcx, hcy, hsx, hsy, hqx, hqy, hm]

/-- C5 witness: two states identical on profile and params but differing in
button, calibration and configuration-flag state produce the same mapped
position. -/
theorem C5_mapper_pure_witness :
    CalculatePosition initialState (1/3) (2/3) =
      CalculatePosition
        { initialState with button_state := 123, calibration_timer := 9,
                            calibration_pos_x := 44, auto_config_done := true }
        (1/3) (2/3) :=
  C5_mapper_pure _ _ _ _ rfl rfl rfl rfl rfl rfl rfl rfl rfl

/-- C10: for bind indices below the first relative-axis index (18),
`SetBindingValue` followed by `GetBindingValue` returns 1 exactly when the
set value was at least 0.5 and 0 otherwise, with `relative_pos` untouched;
for bind indices 18-21 `SetBindingValue` updates only the corresponding
`relative_pos` entry and leaves the button bitmask unchanged. -/
theorem C10_binding_roundtrip (s : GunCon2State) (i : ℕ) (v : ℚ) :
    (i < BID_RELATIVE_LEFT →
      GetBindingValue (SetBindingValue s i v) i =
        (if 1/2 ≤ v then 1 else 0) ∧
      (SetBindingValue s i v).relative_pos = s.relative_pos) ∧
    (∀ (h1 : BID_RELATIVE_LEFT ≤ i) (h2 : i ≤ BID_RELATIVE_DOWN),
      (SetBindingValue s i v).relative_pos
        ⟨i - BID_RELATIVE_LEFT, by
          simp only [BID_RELATIVE_LEFT] at h1 ⊢
          simp only [BID_RELATIVE_DOWN] at h2
          omega⟩ = v ∧
      (∀ j : Fin 4, (j : ℕ) ≠ i - BID_RELATIVE_LEFT →
        (SetBindingValue s i v).relative_pos j = s.relative_pos j) ∧
      (SetBindingValue s i v).button_state = s.button_state) := by
  constructor
  · intro hi
    have hi32 : i < 32 := by
      simp only [BID_RELATIVE_LEFT] at hi; omega
    simp only [SetBindingValue, if_pos hi]
    by_cases hv : 1/2 ≤ v
    · rw [if_pos hv, if_pos hv]
      refine ⟨?_, rfl⟩
      simp only [GetBindingValue, Nat.one_shiftLeft]
      rw [if_pos]
      rw [Nat.and_two_pow, Nat.testBit_or, Nat.testBit_two_pow_self]
      simp
    · rw [if_neg hv, if_neg hv]
      refine ⟨?_, rfl⟩
      simp only [GetBindingValue, Nat.one_shiftLeft]
      rw [if_neg]
      rw [Nat.and_two_pow, Nat.testBit_and, Nat.testBit_xor,
        Nat.testBit_two_pow_sub_one, Nat.testBit_two_pow_self]
      simp [hi32]
  · intro h1 h2
    have hi18 : ¬(i < BID_RELATIVE_LEFT) := by omega
    simp only [SetBindingValue, if_neg hi18, dif_pos h2]
    by_cases heq : s.relative_pos
        ⟨i - BID_RELATIVE_LEFT, by
          simp only [BID_RELATIVE_LEFT] at h1 ⊢
          simp only [BID_RELATIVE_DOWN] at h2
          omega⟩ = v
    · rw [if_pos heq]
      exact ⟨heq, fun j _ => rfl, rfl⟩
    · rw [if_neg heq]
      refine ⟨Function.update_same _ _ _, fun j hj => ?_, rfl⟩
      exact Function.update_noteq (Fin.ne_of_val_ne hj) _ _

/-- C10 witness: setting the trigger binding (index 13) to 0.75 reads back
as 1 and keeps the relative axes; setting relative-axis binding 19 to 0.25
stores it at `relative_pos[1]` and keeps the button bitmask. -/
theorem C10_binding_roundtrip_witness :
    GetBindingValue (SetBindingValue initialState 13 (3/4)) 13 = 1 ∧
    (SetBindingValue initialState 13 (3/4)).relative_pos =
      initialState.relative_pos ∧
    (SetBindingValue initialState 19 (1/4)).relative_pos ⟨1, by omega⟩ =
      1/4 ∧
    (SetBindingValue initialState 19 (1/4)).button_state =
      initialState.button_state := by
  have h1 := (C10_binding_roundtrip initialState 13 (3/4)).1 (by decide)
  have h2 := (C10_binding_roundtrip initialState 19 (1/4)).2 (by decide)
    (by decide)
  refine ⟨?_, h1.2, h2.1, h2.2.2⟩
  rw [h1.1]
  norm_num

/-- `List.find?` returns the element at the first index satisfying the
predicate. -/
theorem find?_first {α : Type} (p : α → Bool) :
    ∀ (l : List α) (i : ℕ) (hi : i < l.length),
    p (l.get ⟨i, hi⟩) = true →
    (∀ j (hj : j < i), p (l.get ⟨j, by omega⟩) = false) →
    l.find? p = some (l.get ⟨i, hi⟩) := by
  intro l
  induction l with
  | nil => intro i hi; exact absurd hi (by simp)
  | cons a l ih =>
      intro i hi hp hfirst
      cases i with
      | zero => exact List.find?_cons_of_pos _ hp
      | succ i =>
          have ha : p a = false := hfirst 0 (Nat.succ_pos _)
          rw [List.find?_cons_of_neg _ (by simp [ha])]
          exact ih i (by simpa using hi) hp
            (fun j hj => hfirst (j + 1) (by omega))

/-- C8: profile selection is a first-match linear scan of `s_game_config` by
exact title serial: a serial absent from the table leaves the profile
unchanged (the default, on a fresh device) and emits the diagnostic notice;
a serial whose first match is table entry `i` installs exactly that entry's
percentage scales divided by 100, centers and screen size, with no notice. -/
theorem C8_profile_selection (s : GunCon2State) (serial : String) :
    ((∀ gc ∈ s_game_config, gc.serial ≠ serial) →
      AutoConfigure serial s = (s, true)) ∧
    (∀ (i : ℕ) (hi : i < s_game_config.length),
      (s_game_config.get ⟨i, hi⟩).serial = serial →
      (∀ j (hj : j < i), (s_game_config.get ⟨j, by omega⟩).serial ≠ serial) →
      AutoConfigure serial s =
        ({ s with
            scale_x := (s_game_config.get ⟨i, hi⟩).scale_x / 100,
            scale_y := (s_game_config.get ⟨i, hi⟩).scale_y / 100,
            center_x := ((s_game_config.get ⟨i, hi⟩).center_x : ℚ),
            center_y := ((s_game_config.get ⟨i, hi⟩).center_y : ℚ),
            screen_width := (s_game_config.get ⟨i, hi⟩).screen_width,
            screen_height := (s_game_config.get ⟨i, hi⟩).screen_height },
         false)) := by
  constructor
  · intro habs
    have hnone : s_game_config.find? (fun gc => gc.serial = serial) = none := by
      rw [List.find?_eq_none]
      intro x hx
      simp [habs x hx]
    unfold AutoConfigure
    rw [hnone]
  · intro i hi hp hfirst
    have hsome : s_game_config.find? (fun gc => gc.serial = serial) =
        some (s_game_config.get ⟨i, hi⟩) := by
      refine find?_first _ s_game_config i hi (decide_eq_true hp) ?_
      intro j hj
      exact decide_eq_false (hfirst j hj)
    unfold AutoConfigure
    rw [hsome]

/-- C8 witness: Endgame (U) is matched at table index 4 and installs its
recorded profile; an absent serial keeps the default profile and emits the
notice. -/
theorem C8_profile_selection_witness :
    AutoConfigure "SLUS-20389" initialState =
      ({ initialState with
          scale_x := 89.25 / 100, scale_y := 93.5 / 100,
          center_x := 422, center_y := 141,
          screen_width := 640, screen_height := 240 }, false) ∧
    AutoConfigure "AAAA-00000" initialState = (initialState, true) := by
  constructor
  · exact (C8_profile_selection initialState "SLUS-20389").2 4 (by decide)
      (by decide) (by decide)
  · exact (C8_profile_selection initialState "AAAA-00000").1 (by decide)

/-- C9: restoring a save state fails hard, restoring no fields, when the
framing marker check fails; on success the params, calibration fields and
`auto_config_done` flag are always taken from the snapshot, while the five
profile fields are taken from the snapshot exactly when the live device is
not under manual configuration and the snapshot was auto-configured, and
kept live otherwise. -/
theorem C9_freeze_restore (s : GunCon2State) (snap : Snapshot) :
    FreezeRead s snap false = none ∧
    (∀ s', FreezeRead s snap true = some s' →
      (s'.param_x = snap.param_x ∧ s'.param_y = snap.param_y ∧
       s'.param_mode = snap.param_mode ∧
       s'.calibration_timer = snap.calibration_timer ∧
       s'.calibration_pos_x = snap.calibration_pos_x ∧
       s'.calibration_pos_y = snap.calibration_pos_y ∧
       s'.auto_config_done = snap.auto_config_done) ∧
      (s.custom_config = false → snap.auto_config_done = true →
        s'.scale_x = snap.scale_x ∧ s'.scale_y = snap.scale_y ∧
        s'.center_x = snap.center_x ∧ s'.center_y = snap.center_y ∧
        s'.screen_width = snap.screen_width ∧
        s'.screen_height = snap.screen_height) ∧
      ((s.custom_config = true ∨ snap.auto_config_done = false) →
        s'.scale_x = s.scale_x ∧ s'.scale_y = s.scale_y ∧
        s'.center_x = s.center_x ∧ s'.center_y = s.center_y ∧
        s'.screen_width = s.screen_width ∧
        s'.screen_height = s.screen_height)) := by
  constructor
  · rfl
  · intro s' h
    have hm : ¬¬(true = true) := fun hh => hh rfl
    by_cases hC : (¬(s.custom_config = true) ∧ snap.auto_config_done = true)
    · simp only [FreezeRead, if_neg hm, if_pos hC] at h
      obtain rfl := (Option.some.inj h).symm
      refine ⟨⟨rfl, rfl, rfl, rfl, rfl, rfl, rfl⟩,
        fun _ _ => ⟨rfl, rfl, rfl, rfl, rfl, rfl⟩, fun hor => ?_⟩
      rcases hor with hcc | hac
      · exact absurd hcc hC.1
      · rw [hC.2] at hac; exact absurd hac (by simp)
    · simp only [FreezeRead, if_neg hm, if_neg hC] at h
      obtain rfl := (Option.some.inj h).symm
      refine ⟨⟨rfl, rfl, rfl, rfl, rfl, rfl, rfl⟩, fun h1 h2 => ?_,
        fun _ => ⟨rfl, rfl, rfl, rfl, rfl, rfl⟩⟩
      exact absurd ⟨by simp [h1], h2⟩ hC

/-- C9 witness: a snapshot carrying profile P restored over a live device
whose profile was later changed to P' (custom config off, snapshot
auto-configured) reinstates P; the failed marker check yields a hard error. -/
theorem C9_freeze_restore_witness :
    FreezeRead { initialState with scale_x := 2 }
      ⟨7, -3, 256, 2, 5, 6, true, 3/2, 1, 420, 130, 512, 256⟩ false = none ∧
    FreezeRead { initialState with scale_x := 2 }
      ⟨7, -3, 256, 2, 5, 6, true, 3/2, 1, 420, 130, 512, 256⟩ true =
      some { initialState with
              param_x := 7, param_y := -3, param_mode := 256,
              calibration_timer := 2, calibration_pos_x := 5,
              calibration_pos_y := 6, auto_config_done := true,
              scale_x := 3/2, scale_y := 1, center_x := 420, center_y := 130,
              screen_width := 512, screen_height := 256 } ∧
    ({ initialState with
        param_x := 7, param_y := -3, param_mode := 256,
        calibration_timer := 2, calibration_pos_x := 5,
        calibration_pos_y := 6, auto_config_done := true,
        scale_x := 3/2, scale_y := 1, center_x := 420, center_y := 130,
        screen_width := 512, screen_height := 256 } : GunCon2State).scale_x =
      3/2 := by
  have h := C9_freeze_restore { initialState with scale_x := 2 }
    ⟨7, -3, 256, 2, 5, 6, true, 3/2, 1, 420, 130, 512, 256⟩
  refine ⟨h.1, rfl, ?_⟩
  exact ((h.2 _ rfl).2.1 rfl rfl).1

/-- `AutoConfigure` touches only the five profile fields: params,
calibration, flags, buttons and relative axes are untouched. -/
theorem AutoConfigure_fields (serial : String) (s : GunCon2State) :
    (AutoConfigure serial s).1.param_x = s.param_x ∧
    (AutoConfigure serial s).1.param_y = s.param_y ∧
    (AutoConfigure serial s).1.param_mode = s.param_mode ∧
    (AutoConfigure serial s).1.calibration_timer = s.calibration_timer ∧
    (AutoConfigure serial s).1.calibration_pos_x = s.calibration_pos_x ∧
    (AutoConfigure serial s).1.calibration_pos_y = s.calibration_pos_y ∧
    (AutoConfigure serial s).1.custom_config = s.custom_config ∧
    (AutoConfigure serial s).1.auto_config_done = s.auto_config_done ∧
    (AutoConfigure serial s).1.button_state = s.button_state := by
  unfold AutoConfigure
  cases s_game_config.find? (fun gc => gc.serial = serial) <;>
    exact ⟨rfl, rfl, rfl, rfl, rfl, rfl, rfl, rfl, rfl⟩

/-- `autoConfigStep` leaves a device with `auto_config_done` set untouched. -/
theorem autoConfigStep_of_done (s : GunCon2State) (serial : String)
    (h : s.auto_config_done = true) : autoConfigStep s serial = s := by
  unfold autoConfigStep
  rw [if_neg]
  rintro ⟨h1, -⟩
  exact h1 h

/-- `autoConfigStep` leaves a device under custom configuration untouched. -/
theorem autoConfigStep_of_custom (s : GunCon2State) (serial : String)
    (h : s.custom_config = true) : autoConfigStep s serial = s := by
  unfold autoConfigStep
  rw [if_neg]
  rintro ⟨-, h2⟩
  exact h2 h

/-- After `autoConfigStep` the flag is set unless custom configuration
suppressed the selection. -/
theorem autoConfigStep_acd (s : GunCon2State) (serial : String) :
    (autoConfigStep s serial).auto_config_done =
      (s.auto_config_done || !s.custom_config) := by
  unfold autoConfigStep
  by_cases hA : (¬(s.auto_config_done = true) ∧ ¬(s.custom_config = true))
  · rw [if_pos hA]
    obtain ⟨h1, h2⟩ := hA
    have h1' : s.auto_config_done = false := by
      revert h1; cases s.auto_config_done <;> simp
    have h2' : s.custom_config = false := by
      revert h2; cases s.custom_config <;> simp
    simp [h1', h2']
  · rw [if_neg hA]
    rcases not_and_or.1 hA with h | h
    · have h' : s.auto_config_done = true := by
        revert h; cases s.auto_config_done <;> simp
      simp [h']
    · have h' : s.custom_config = true := by
        revert h; cases s.custom_config <;> simp
      simp [h']

/-- Each branch of `guncon2_handle_control` preserves the profile fields and
the configuration flags of the state produced by `autoConfigStep`. -/
theorem handle_control_cases (s : GunCon2State) (serial : String) (dh : Bool)
    (req : ℕ) (d : Fin 6 → ℕ) :
    (guncon2_handle_control s serial dh req d).1.screen_width =
      (autoConfigStep s serial).screen_width ∧
    (guncon2_handle_control s serial dh req d).1.screen_height =
      (autoConfigStep s serial).screen_height ∧
    (guncon2_handle_control s serial dh req d).1.center_x =
      (autoConfigStep s serial).center_x ∧
    (guncon2_handle_control s serial dh req d).1.center_y =
      (autoConfigStep s serial).center_y ∧
    (guncon2_handle_control s serial dh req d).1.scale_x =
      (autoConfigStep s serial).scale_x ∧
    (guncon2_handle_control s serial dh req d).1.scale_y =
      (autoConfigStep s serial).scale_y ∧
    (guncon2_handle_control s serial dh req d).1.auto_config_done =
      (autoConfigStep s serial).auto_config_done ∧
    (guncon2_handle_control s serial dh req d).1.custom_config =
      (autoConfigStep s serial).custom_config := by
  cases dh
  · by_cases hreq : req = SET_PARAM_REQUEST
    · simp only [guncon2_handle_control, if_neg Bool.false_ne_true,
        if_pos hreq]
      exact ⟨trivial, trivial, trivial, trivial, trivial, trivial, trivial, trivial⟩
    · simp only [guncon2_handle_control, if_neg Bool.false_ne_true,
        if_neg hreq]
      exact ⟨trivial, trivial, trivial, trivial, trivial, trivial, trivial, trivial⟩
  · simp [guncon2_handle_control]

/-- C6 counterexample: the claim says any request other than the
set-parameter request stalls "with no change to device state", but on the
very first control packet of a fresh device the handler performs the
one-time auto-configuration and flips `auto_config_done` before stalling —
the stall occurs, yet the state differs from the initial one. -/
theorem C6_counterexample :
    (guncon2_handle_control initialState "ZZZZ-99999" false 0
      (fun _ => 0)).2 = true ∧
    initialState.auto_config_done = false ∧
    (guncon2_handle_control initialState "ZZZZ-99999" false 0
      (fun _ => 0)).1.auto_config_done = true := by
  refine ⟨?_, rfl, ?_⟩ <;> rfl

/-- C6 amended: among control requests not satisfied by descriptor
negotiation, the handler recognizes exactly the one set-parameter request,
storing its 6-byte little-endian payload as `param_x` (bytes 0-1), `param_y`
(bytes 2-3) and `param_mode` (bytes 4-5) without stalling; every other such
request results in a protocol stall with params and calibration state
unchanged, and with the whole device state unchanged except for the one-time
profile auto-configuration (and the `auto_config_done` flag it sets)
performed on a first control transfer when custom configuration is off. -/
theorem C6_control_request_amended (s : GunCon2State) (serial : String)
    (req : ℕ) (d : Fin 6 → ℕ) :
    (req = SET_PARAM_REQUEST →
      (guncon2_handle_control s serial false req d).2 = false ∧
      (guncon2_handle_control s serial false req d).1.param_x =
        toS16 ((d 0 % 256) + 256 * (d 1 % 256)) ∧
      (guncon2_handle_control s serial false req d).1.param_y =
        toS16 ((d 2 % 256) + 256 * (d 3 % 256)) ∧
      (guncon2_handle_control s serial false req d).1.param_mode =
        (d 4 % 256) + 256 * (d 5 % 256)) ∧
    (req ≠ SET_PARAM_REQUEST →
      (guncon2_handle_control s serial false req d).2 = true ∧
      (guncon2_handle_control s serial false req d).1.param_x = s.param_x ∧
      (guncon2_handle_control s serial false req d).1.param_y = s.param_y ∧
      (guncon2_handle_control s serial false req d).1.param_mode =
        s.param_mode ∧
      (guncon2_handle_control s serial false req d).1.calibration_timer =
        s.calibration_timer ∧
      (guncon2_handle_control s serial false req d).1.calibration_pos_x =
        s.calibration_pos_x ∧
      (guncon2_handle_control s serial false req d).1.calibration_pos_y =
        s.calibration_pos_y ∧
      (s.auto_config_done = true →
        (guncon2_handle_control s serial false req d).1 = s)) := by
  obtain ⟨hpx, hpy, hpm, hct, hcx, hcy, hcc, hac, hbs⟩ :=
    AutoConfigure_fields serial s
  by_cases hA : (¬(s.auto_config_done = true) ∧ ¬(s.custom_config = true))
  · constructor
    · intro hreq
      simp only [guncon2_handle_control, autoConfigStep, if_pos hA,
        if_neg Bool.false_ne_true, if_pos hreq]
      refine ⟨?_, ?_, ?_, ?_⟩ <;> trivial
    · intro hreq
      simp only [guncon2_handle_control, autoConfigStep, if_pos hA,
        if_neg Bool.false_ne_true, if_neg hreq]
      refine ⟨?_, ?_, ?_, ?_, ?_, ?_, ?_, ?_⟩ <;>
        first
          | trivial
          | exact hpx
          | exact hpy
          | exact hpm
          | exact hct
          | exact hcx
          | exact hcy
          | exact fun hdone => absurd hdone hA.1
  · constructor
    · intro hreq
      simp only [guncon2_handle_control, autoConfigStep, if_neg hA,
        if_neg Bool.false_ne_true, if_pos hreq]
      refine ⟨?_, ?_, ?_, ?_⟩ <;> trivial
    · intro hreq
      simp only [guncon2_handle_control, autoConfigStep, if_neg hA,
        if_neg Bool.false_ne_true, if_neg hreq]
      refine ⟨?_, ?_, ?_, ?_, ?_, ?_, ?_, ?_⟩ <;>
        first
          | trivial
          | exact fun _ => trivial

/-- C6 amended witness: the set-parameter request stores the payload
`(0x7FFF, 0xFFFF, 0x0100)` as `param_x = 32767`, `param_y = -1`,
`param_mode = 256` without stalling; request 0 on an already-configured
device stalls and leaves the state untouched. -/
theorem C6_control_request_amended_witness :
    ((guncon2_handle_control { auto_config_done := true } "AAAA-00000" false
        SET_PARAM_REQUEST
        (fun i => if i = 0 then 0xFF else if i = 1 then 0x7F else
          if i = 2 then 0xFF else if i = 3 then 0xFF else
          if i = 4 then 0x00 else 0x01)).2 = false ∧
      (guncon2_handle_control { auto_config_done := true } "AAAA-00000" false
        SET_PARAM_REQUEST
        (fun i => if i = 0 then 0xFF else if i = 1 then 0x7F else
          if i = 2 then 0xFF else if i = 3 then 0xFF else
          if i = 4 then 0x00 else 0x01)).1.param_x = 32767) ∧
    ((guncon2_handle_control ({ auto_config_done := true } : GunCon2State)
        "AAAA-00000" false 0 (fun _ => 0)).2 = true ∧
      (guncon2_handle_control ({ auto_config_done := true } : GunCon2State)
        "AAAA-00000" false 0 (fun _ => 0)).1 =
        { auto_config_done := true }) := by
  have h1 := (C6_control_request_amended { auto_config_done := true }
    "AAAA-00000" SET_PARAM_REQUEST
    (fun i => if i = 0 then 0xFF else if i = 1 then 0x7F else
      if i = 2 then 0xFF else if i = 3 then 0xFF else
      if i = 4 then 0x00 else 0x01)).1 rfl
  have h2 := (C6_control_request_amended ({ auto_config_done := true } :
    GunCon2State) "AAAA-00000" 0 (fun _ => 0)).2 (by decide)
  refine ⟨⟨h1.1, ?_⟩, h2.1, h2.2.2.2.2.2.2.2 rfl⟩
  rw [h1.2.1]
  decide

/-- C7: `ScreenProfile` auto-selection runs at most once per device
instance: after any control transfer on a device without custom
configuration the `auto_config_done` flag is set, a control transfer on a
device whose flag is already set (or under custom configuration) leaves the
profile untouched, a second control transfer after a first one (custom
configuration off) never changes the profile again, and under custom
configuration `UpdateSettings` always installs the user-provided profile
values. -/
theorem C7_auto_config_once (s : GunCon2State) (serial serial' : String)
    (dh dh' : Bool) (req req' : ℕ) (d d' : Fin 6 → ℕ) (c : ConfigValues) :
    (s.custom_config = false →
      (guncon2_handle_control s serial dh req d).1.auto_config_done =
        true) ∧
    (s.auto_config_done = true →
      (guncon2_handle_control s serial dh req d).1.screen_width =
        s.screen_width ∧
      (guncon2_handle_control s serial dh req d).1.screen_height =
        s.screen_height ∧
      (guncon2_handle_control s serial dh req d).1.center_x = s.center_x ∧
      (guncon2_handle_control s serial dh req d).1.center_y = s.center_y ∧
      (guncon2_handle_control s serial dh req d).1.scale_x = s.scale_x ∧
      (guncon2_handle_control s serial dh req d).1.scale_y = s.scale_y) ∧
    (s.custom_config = true →
      (guncon2_handle_control s serial dh req d).1.screen_width =
        s.screen_width ∧
      (guncon2_handle_control s serial dh req d).1.screen_height =
        s.screen_height ∧
      (guncon2_handle_control s serial dh req d).1.center_x = s.center_x ∧
      (guncon2_handle_control s serial dh req d).1.center_y = s.center_y ∧
      (guncon2_handle_control s serial dh req d).1.scale_x = s.scale_x ∧
      (guncon2_handle_control s serial dh req d).1.scale_y = s.scale_y ∧
      (guncon2_handle_control s serial dh req d).1.auto_config_done =
        s.auto_config_done) ∧
    (s.custom_config = false →
      (guncon2_handle_control (guncon2_handle_control s serial dh req d).1
          serial' dh' req' d').1.screen_width =
        (guncon2_handle_control s serial dh req d).1.screen_width ∧
      (guncon2_handle_control (guncon2_handle_control s serial dh req d).1
          serial' dh' req' d').1.screen_height =
        (guncon2_handle_control s serial dh req d).1.screen_height ∧
      (guncon2_handle_control (guncon2_handle_control s serial dh req d).1
          serial' dh' req' d').1.center_x =
        (guncon2_handle_control s serial dh req d).1.center_x ∧
      (guncon2_handle_control (guncon2_handle_control s serial dh req d).1
          serial' dh' req' d').1.center_y =
        (guncon2_handle_control s serial dh req d).1.center_y ∧
      (guncon2_handle_control (guncon2_handle_control s serial dh req d).1
          serial' dh' req' d').1.scale_x =
        (guncon2_handle_control s serial dh req d).1.scale_x ∧
      (guncon2_handle_control (guncon2_handle_control s serial dh req d).1
          serial' dh' req' d').1.scale_y =
        (guncon2_handle_control s serial dh req d).1.scale_y) ∧
    (c.custom_config = true →
      (UpdateSettings s c).screen_width = c.screen_width ∧
      (UpdateSettings s c).screen_height = c.screen_height ∧
      (UpdateSettings s c).center_x = c.center_x ∧
      (UpdateSettings s c).center_y = c.center_y ∧
      (UpdateSettings s c).scale_x = c.scale_x / 100 ∧
      (UpdateSettings s c).scale_y = c.scale_y / 100) := by
  refine ⟨fun hcc => ?_, fun hacd => ?_, fun hcu => ?_, fun hcc => ?_,
    fun hc => ?_⟩
  · rw [(handle_control_cases s serial dh req d).2.2.2.2.2.2.1,
      autoConfigStep_acd, hcc]
    simp
  · obtain ⟨e1, e2, e3, e4, e5, e6, -, -⟩ :=
      handle_control_cases s serial dh req d
    rw [autoConfigStep_of_done s serial hacd] at e1 e2 e3 e4 e5 e6
    exact ⟨e1, e2, e3, e4, e5, e6⟩
  · obtain ⟨e1, e2, e3, e4, e5, e6, e7, -⟩ :=
      handle_control_cases s serial dh req d
    rw [autoConfigStep_of_custom s serial hcu] at e1 e2 e3 e4 e5 e6 e7
    exact ⟨e1, e2, e3, e4, e5, e6, e7⟩
  · have hacd1 : (guncon2_handle_control s serial dh req d).1.auto_config_done
        = true := by
      rw [(handle_control_cases s serial dh req d).2.2.2.2.2.2.1,
        autoConfigStep_acd, hcc]
      simp
    obtain ⟨e1, e2, e3, e4, e5, e6, -, -⟩ := handle_control_cases
      (guncon2_handle_control s serial dh req d).1 serial' dh' req' d'
    rw [autoConfigStep_of_done _ serial' hacd1] at e1 e2 e3 e4 e5 e6
    exact ⟨e1, e2, e3, e4, e5, e6⟩
  · have hcond : (¬({ s with custom_config := c.custom_config } :
        GunCon2State).auto_config_done = true ∨
        ({ s with custom_config := c.custom_config } :
        GunCon2State).custom_config = true) := Or.inr hc
    simp only [UpdateSettings, if_pos hcond]
    refine ⟨?_, ?_, ?_, ?_, ?_, ?_⟩ <;> trivial

/-- C7 witness: a device with `auto_config_done` already set keeps its
profile and flag across control transfers, including a second transfer; a
device under custom configuration is never auto-selected; `UpdateSettings`
with custom configuration installs the user values. -/
theorem C7_auto_config_once_witness :
    (guncon2_handle_control ({ auto_config_done := true } : GunCon2State)
      "AAAA-00000" false 0 (fun _ => 0)).1.auto_config_done = true ∧
    (guncon2_handle_control ({ auto_config_done := true } : GunCon2State)
      "AAAA-00000" false 0 (fun _ => 0)).1.screen_width = 640 ∧
    (guncon2_handle_control ({ custom_config := true } : GunCon2State)
      "AAAA-00000" false 0 (fun _ => 0)).1.auto_config_done = false ∧
    (guncon2_handle_control
      (guncon2_handle_control ({ auto_config_done := true } : GunCon2State)
        "AAAA-00000" false 0 (fun _ => 0)).1
      "SLES-50930" false 0 (fun _ => 0)).1.screen_width =
      (guncon2_handle_control ({ auto_config_done := true } : GunCon2State)
        "AAAA-00000" false 0 (fun _ => 0)).1.screen_width ∧
    (UpdateSettings ({ auto_config_done := true } : GunCon2State)
      ⟨true, 800, 600, 10, 20, 150, 50⟩).screen_width = 800 ∧
    (UpdateSettings ({ auto_config_done := true } : GunCon2State)
      ⟨true, 800, 600, 10, 20, 150, 50⟩).scale_x = 150 / 100 := by
  have hA := C7_auto_config_once ({ auto_config_done := true } : GunCon2State)
    "AAAA-00000" "SLES-50930" false false 0 0 (fun _ => 0) (fun _ => 0)
    ⟨true, 800, 600, 10, 20, 150, 50⟩
  have hB := C7_auto_config_once ({ custom_config := true } : GunCon2State)
    "AAAA-00000" "SLES-50930" false false 0 0 (fun _ => 0) (fun _ => 0)
    ⟨true, 800, 600, 10, 20, 150, 50⟩
  exact ⟨hA.1 rfl, (hA.2.1 rfl).1, (hB.2.2.1 rfl).2.2.2.2.2.2,
    (hA.2.2.2.1 rfl).1, (hA.2.2.2.2 rfl).1, (hA.2.2.2.2 rfl).2.2.2.2.1⟩

/-- `roundHalfAway` is at most its argument plus one half. -/
theorem roundHalfAway_le (q : ℚ) : (roundHalfAway q : ℚ) ≤ q + 1/2 := by
  unfold roundHalfAway
  split
  · exact Int.floor_le _
  · have h := Int.lt_floor_add_one (-q + 1/2)
    push_cast
    linarith

/-- `roundHalfAway` is at least its argument minus one half. -/
theorem le_roundHalfAway (q : ℚ) : q - 1/2 ≤ (roundHalfAway q : ℚ) := by
  unfold roundHalfAway
  split
  · have h := Int.lt_floor_add_one (q + 1/2)
    linarith
  · have h := Int.floor_le (-q + 1/2)
    push_cast
    linarith

/-- Truncating halving keeps an `s16` value in the `s16` range. -/
theorem tdiv_two_bounds (q : ℤ) (h1 : -32768 ≤ q) (h2 : q ≤ 32767) :
    -32768 ≤ q.tdiv 2 ∧ q.tdiv 2 ≤ 32767 := by
  rcases le_or_lt 0 q with h | h
  · rw [Int.tdiv_eq_ediv h (by norm_num)]
    omega
  · have h' : q.tdiv 2 = -((-q).tdiv 2) := by rw [Int.neg_tdiv]; ring
    rw [h', Int.tdiv_eq_ediv (by omega) (by norm_num)]
    omega

/-- `toS16` of a value in `[1, 65535]` is never zero. -/
theorem toS16_ne_zero (v : ℤ) (h1 : 1 ≤ v) (h2 : v ≤ 65535) :
    toS16 v ≠ 0 := by
  unfold toS16
  omega

/-- `toS16` of a value in `[1, 65535]` has magnitude at least one. -/
theorem one_le_abs_toS16 (v : ℤ) (h1 : 1 ≤ v) (h2 : v ≤ 65535) :
    1 ≤ |toS16 v| := by
  have h : 0 < |toS16 v| := abs_pos.2 (toS16_ne_zero v h1 h2)
  omega

/-- Bounds on the rounded, scaled, centered coordinate: for a normalized
sample, a virtual screen of at most 1024 pixels, a scale in `[0, 2]` and a
center in `[0, 1024]`, the rounded value lies in `[-1025, 3072]`. -/
theorem roundPart_bounds (w : ℕ) (sc cc p : ℚ)
    (hw : w ≤ 1024) (hs1 : 0 ≤ sc) (hs2 : sc ≤ 2)
    (hc1 : 0 ≤ cc) (hc2 : cc ≤ 1024) (hp0 : 0 ≤ p) (hp1 : p ≤ 1) :
    -1025 ≤ roundHalfAway ((p * (w : ℚ) - ((w / 2 : ℕ) : ℚ)) * sc + cc) ∧
    roundHalfAway ((p * (w : ℚ) - ((w / 2 : ℕ) : ℚ)) * sc + cc) ≤ 3072 := by
  have hwq : (w : ℚ) ≤ 1024 := by exact_mod_cast hw
  have hwq0 : (0 : ℚ) ≤ (w : ℚ) := by positivity
  have hhalf0 : (0 : ℚ) ≤ ((w / 2 : ℕ) : ℚ) := by positivity
  have hhalf : ((w / 2 : ℕ) : ℚ) ≤ 512 := by
    have hn : (w / 2 : ℕ) ≤ 512 := by omega
    exact_mod_cast hn
  have hfx_ub : p * (w : ℚ) - ((w / 2 : ℕ) : ℚ) ≤ 1024 := by
    have hpw : p * (w : ℚ) ≤ (w : ℚ) := by nlinarith
    linarith
  have hfx_lb : -512 ≤ p * (w : ℚ) - ((w / 2 : ℕ) : ℚ) := by
    have hpw : 0 ≤ p * (w : ℚ) := mul_nonneg hp0 hwq0
    linarith
  have hps_ub : (p * (w : ℚ) - ((w / 2 : ℕ) : ℚ)) * sc ≤ 2048 := by
    rcases le_or_lt 0 (p * (w : ℚ) - ((w / 2 : ℕ) : ℚ)) with hf | hf
    · nlinarith
    · nlinarith
  have hps_lb : -1024 ≤ (p * (w : ℚ) - ((w / 2 : ℕ) : ℚ)) * sc := by
    rcases le_or_lt 0 (p * (w : ℚ) - ((w / 2 : ℕ) : ℚ)) with hf | hf
    · nlinarith
    · nlinarith
  constructor
  · have h := le_roundHalfAway ((p * (w : ℚ) - ((w / 2 : ℕ) : ℚ)) * sc + cc)
    have h2 : (-1025 : ℚ) <
        (roundHalfAway ((p * (w : ℚ) - ((w / 2 : ℕ) : ℚ)) * sc + cc) : ℚ) :=
      by linarith
    have h3 : (-1025 : ℤ) <
        roundHalfAway ((p * (w : ℚ) - ((w / 2 : ℕ) : ℚ)) * sc + cc) := by
      exact_mod_cast h2
    omega
  · have h := roundHalfAway_le ((p * (w : ℚ) - ((w / 2 : ℕ) : ℚ)) * sc + cc)
    have h2 : (roundHalfAway ((p * (w : ℚ) - ((w / 2 : ℕ) : ℚ)) * sc + cc) :
        ℚ) < 3073 := by linarith
    have h3 : roundHalfAway ((p * (w : ℚ) - ((w / 2 : ℕ) : ℚ)) * sc + cc) <
        (3073 : ℤ) := by exact_mod_cast h2
    omega

/-- Bounds on a mapped axis before the clamp: the title offset (full or
halved) keeps the value strictly inside `(-65536, 65536)`. -/
theorem offsetRound_bounds (w : ℕ) (sc cc p : ℚ) (q : ℤ) (pm : ℕ)
    (hw : w ≤ 1024) (hs1 : 0 ≤ sc) (hs2 : sc ≤ 2)
    (hc1 : 0 ≤ cc) (hc2 : cc ≤ 1024)
    (hq1 : -32768 ≤ q) (hq2 : q ≤ 32767)
    (hp0 : 0 ≤ p) (hp1 : p ≤ 1) :
    -65534 ≤ (if pm &&& GUNCON2_FLAG_PROGRESSIVE ≠ 0
        then roundHalfAway ((p * (w : ℚ) - ((w / 2 : ℕ) : ℚ)) * sc + cc) -
          q.tdiv 2
        else roundHalfAway ((p * (w : ℚ) - ((w / 2 : ℕ) : ℚ)) * sc + cc) -
          q) ∧
    (if pm &&& GUNCON2_FLAG_PROGRESSIVE ≠ 0
        then roundHalfAway ((p * (w : ℚ) - ((w / 2 : ℕ) : ℚ)) * sc + cc) -
          q.tdiv 2
        else roundHalfAway ((p * (w : ℚ) - ((w / 2 : ℕ) : ℚ)) * sc + cc) -
          q) ≤ 65535 := by
  obtain ⟨hlb, hub⟩ := roundPart_bounds w sc cc p hw hs1 hs2 hc1 hc2 hp0 hp1
  obtain ⟨ht1, ht2⟩ := tdiv_two_bounds q hq1 hq2
  split <;> omega

/-- C3: over the documented configuration domains (screen size at most 1024,
scale in `[0, 2]` (0-200 %), center in `[0, 1024]`, `s16` title offsets) and
normalized samples, the mapper returns the sentinel `(0, 0)` iff an input
coordinate is negative; every onscreen sample yields axes of magnitude at
least 1; and in non-progressive mode a title offset `param_x` large enough
to push the computed X below 1 clamps the result to exactly 1 — never 0 and
never a wrapped negative value. -/
theorem C3_sentinel_clamp (s : GunCon2State) (px py : ℚ)
    (hw2 : s.screen_width ≤ 1024) (hh2 : s.screen_height ≤ 1024)
    (hsx1 : 0 ≤ s.scale_x) (hsx2 : s.scale_x ≤ 2)
    (hsy1 : 0 ≤ s.scale_y) (hsy2 : s.scale_y ≤ 2)
    (hcx1 : 0 ≤ s.center_x) (hcx2 : s.center_x ≤ 1024)
    (hcy1 : 0 ≤ s.center_y) (hcy2 : s.center_y ≤ 1024)
    (hqx1 : -32768 ≤ s.param_x) (hqx2 : s.param_x ≤ 32767)
    (hqy1 : -32768 ≤ s.param_y) (hqy2 : s.param_y ≤ 32767)
    (hpx1 : px ≤ 1) (hpy1 : py ≤ 1) :
    (CalculatePosition s px py = (0, 0) ↔ (px < 0 ∨ py < 0)) ∧
    (0 ≤ px → 0 ≤ py →
      1 ≤ |(CalculatePosition s px py).1| ∧
      1 ≤ |(CalculatePosition s px py).2|) ∧
    (0 ≤ px → 0 ≤ py → s.param_mode &&& GUNCON2_FLAG_PROGRESSIVE = 0 →
      roundHalfAway ((px * (s.screen_width : ℚ) -
          ((s.screen_width / 2 : ℕ) : ℚ)) * s.scale_x + s.center_x) -
        s.param_x < 1 →
      (CalculatePosition s px py).1 = 1) := by
  refine ⟨⟨fun heq => ?_, fun hoff => ?_⟩, fun hpx0 hpy0 => ?_,
    fun hpx0 hpy0 hprog hless => ?_⟩
  · by_contra hno
    obtain ⟨hX1, hX2⟩ := offsetRound_bounds s.screen_width s.scale_x
      s.center_x px s.param_x s.param_mode hw2 hsx1 hsx2 hcx1 hcx2 hqx1 hqx2
      (not_lt.1 fun h => hno (Or.inl h)) hpx1
    have h1 := congrArg Prod.fst heq
    simp only [CalculatePosition, if_neg hno] at h1
    exact toS16_ne_zero _ (le_max_right _ _) (max_le hX2 (by norm_num)) h1
  · simp [CalculatePosition, if_pos hoff]
  · have hno : ¬(px < 0 ∨ py < 0) := by
      rintro (h | h)
      · exact absurd hpx0 (not_le.2 h)
      · exact absurd hpy0 (not_le.2 h)
    obtain ⟨hX1, hX2⟩ := offsetRound_bounds s.screen_width s.scale_x
      s.center_x px s.param_x s.param_mode hw2 hsx1 hsx2 hcx1 hcx2 hqx1 hqx2
      hpx0 hpx1
    obtain ⟨hY1, hY2⟩ := offsetRound_bounds s.screen_height s.scale_y
      s.center_y py s.param_y s.param_mode hh2 hsy1 hsy2 hcy1 hcy2 hqy1 hqy2
      hpy0 hpy1
    simp only [CalculatePosition, if_neg hno]
    exact ⟨one_le_abs_toS16 _ (le_max_right _ _) (max_le hX2 (by norm_num)),
      one_le_abs_toS16 _ (le_max_right _ _) (max_le hY2 (by norm_num))⟩
  · have hno : ¬(px < 0 ∨ py < 0) := by
      rintro (h | h)
      · exact absurd hpx0 (not_le.2 h)
      · exact absurd hpy0 (not_le.2 h)
    have hc : ¬(s.param_mode &&& GUNCON2_FLAG_PROGRESSIVE ≠ 0) := by
      simp [hprog]
    simp only [CalculatePosition, if_neg hno]
    rw [if_neg hc, max_eq_right hless.le]
    decide

/-- C3 witness: the fresh device profile and centered sample satisfy all the
domain bounds; the sentinel iff, the magnitude bound and the clamp
implication hold there. -/
theorem C3_sentinel_clamp_witness :
    (CalculatePosition initialState (1/2) (1/2) = (0, 0) ↔
      ((1:ℚ)/2 < 0 ∨ (1:ℚ)/2 < 0)) ∧
    ((0:ℚ) ≤ 1/2 → (0:ℚ) ≤ 1/2 →
      1 ≤ |(CalculatePosition initialState (1/2) (1/2)).1| ∧
      1 ≤ |(CalculatePosition initialState (1/2) (1/2)).2|) ∧
    ((0:ℚ) ≤ 1/2 → (0:ℚ) ≤ 1/2 →
      initialState.param_mode &&& GUNCON2_FLAG_PROGRESSIVE = 0 →
      roundHalfAway (((1:ℚ)/2 * (initialState.screen_width : ℚ) -
          ((initialState.screen_width / 2 : ℕ) : ℚ)) * initialState.scale_x +
          initialState.center_x) - initialState.param_x < 1 →
      (CalculatePosition initialState (1/2) (1/2)).1 = 1) :=
  C3_sentinel_clamp initialState (1/2) (1/2)
    (by norm_num [initialState]) (by norm_num [initialState])
    (by norm_num [initialState]) (by norm_num [initialState])
    (by norm_num [initialState]) (by norm_num [initialState])
    (by norm_num [initialState]) (by norm_num [initialState])
    (by norm_num [initialState]) (by norm_num [initialState])
    (by norm_num [initialState]) (by norm_num [initialState])
    (by norm_num [initialState]) (by norm_num [initialState])
    (by norm_num) (by norm_num)

end usb_lightgun
